import Mathlib

/-!
Shallow embedding of the dispatch pipeline of the lambda-inversify-integration
repository (class HttpMethodController in src/HttpMethodController.ts), together
with proofs of the behavioural properties claimed by its specification.

Modelling conventions:
* An awaited JavaScript promise is a `PResult`: fulfilled with a value or
  rejected.  Every catch handler in the source discards the rejection reason,
  so the reason is not modelled.
* The statically typed field kinds of one binding (HTTP body, path parameter,
  query parameter, header) are type parameters `T U K P`, and the user-info
  type is `E`, exactly as in the TypeScript generics.
* The process-wide static slot `HttpMethodController.authenticationFunc` is
  passed to the dispatcher as an explicit argument.
* In the source, `condition.func` is a key and the function is looked up on
  the controller object at invocation time; the embedding stores the bound
  function value itself in the condition, as the specification design notes
  describe for a reimplementation.  No claim depends on the key indirection.
* Each call of an injected collaborator (authentication function, validation
  gate, custom validation function, bound handler) is recorded in a trace, so
  that the claims of the form "X is never invoked" are statable.
-/

set_option autoImplicit false

/-- Result of an awaited JavaScript promise: fulfilled with a value, or
rejected.  The rejection reason is discarded by every catch in the source and
is therefore not modelled. -/
inductive PResult (α : Type) where
  | resolved (value : α)
  | rejected
  deriving DecidableEq

/-- The semantics of `p.catch(() => d)` immediately awaited: a fulfilled
promise keeps its value, a rejected one is replaced by the default. -/
def PResult.catchD {α : Type} : PResult α → α → α
  | .resolved v, _ => v
  | .rejected, d => d

/-- Modelled from the spec: src/HttpMethod.ts is not among the provided source
files.  The spec says the method identifier is one of a fixed enumerated set
of HTTP methods. -/
inductive HttpMethod where
  | GET
  | POST
  | PUT
  | DELETE
  | PATCH
  | OPTIONS
  | HEAD
  deriving DecidableEq

/-- The response shape returned to API Gateway: the fields of
APIGatewayProxyResult that the dispatcher uses. -/
structure APIGatewayProxyResult where
  statusCode : Int
  body : String
  deriving DecidableEq

/-- The fields of APIGatewayProxyEvent that the dispatcher reads, with the
per-binding field types `T U K P` (body, path parameter, query parameter,
header).  Path parameters, body and query parameters may be absent. -/
structure APIGatewayProxyEvent (T U K P : Type) where
  httpMethod : HttpMethod
  headers : P
  pathParameters : Option U
  body : Option T
  queryStringParameters : Option K

/-- Return type of the authentication function: optional user information and
the two error flags. -/
structure AuthenticationFunctionResult (E : Type) where
  userInfo : Option E
  error401 : Bool
  error500 : Bool
  deriving DecidableEq

/-- The process-wide authentication function: receives the raw event, returns
a promise of an AuthenticationFunctionResult. -/
def AuthenticationFunction (E T U K P : Type) : Type :=
  APIGatewayProxyEvent T U K P → PResult (AuthenticationFunctionResult E)

/-- Modelled from the spec: src/Validator.ts is not among the provided source
files.  A validator is an externally supplied predicate over a typed value;
it receives absent input directly and decides for itself whether absence is
acceptable. -/
def Validator (X : Type) : Type := X → Bool

/-- The four independently optional per-field validators of one binding. -/
structure IValidation (T U K P : Type) where
  bodyValidator : Option (Validator (Option T)) := none
  paramValidator : Option (Validator (Option U)) := none
  queryValidator : Option (Validator (Option K)) := none
  headerValidator : Option (Validator P) := none

/-- Modelled from the spec: src/Validation.ts is not among the provided source
files.  Spec section 4.3: each of the four validators is independently
optional; an absent validator always passes; a present validator is applied
to its corresponding field only; the overall result is the logical AND across
all four checks. -/
def Validation.check {T U K P : Type} (validation : IValidation T U K P) (headers : P)
    (pathParameters : Option U) (body : Option T) (queryParameters : Option K) : Bool :=
  (match validation.bodyValidator with | none => true | some v => v body) &&
  (match validation.paramValidator with | none => true | some v => v pathParameters) &&
  (match validation.queryValidator with | none => true | some v => v queryParameters) &&
  (match validation.headerValidator with | none => true | some v => v headers)

/-- The raw, untyped fields handed to a custom validation function. -/
structure CustomValidationFunctionEventParameter (T U K P : Type) where
  headers : P
  pathParameters : Option U
  body : Option T
  queryParameters : Option K

/-- Return type of a custom validation function: a pass or fail flag and an
optional override response. -/
structure CustomValidationFunctionResult where
  validationResult : Bool
  errorResponse : Option APIGatewayProxyResult := none

/-- A custom validation function: receives the raw fields, returns a promise
of a CustomValidationFunctionResult. -/
def CustomValidationFunction (T U K P : Type) : Type :=
  CustomValidationFunctionEventParameter T U K P → PResult CustomValidationFunctionResult

/-- The merged event passed to a bound handler: the raw fields plus the
authenticated user information.  The source writes `userInfo as E` on a
possibly-undefined value, so the field is modelled as optional. -/
structure CallFunctionEventParameter (E T U K P : Type) where
  headers : P
  pathParameters : Option U
  body : Option T
  queryParameters : Option K
  userInfo : Option E

/-- A bound handler function: receives the merged event, returns a promise of
a response. -/
def CallFunction (E T U K P : Type) : Type :=
  CallFunctionEventParameter E T U K P → PResult APIGatewayProxyResult

/-- One binding (type Condition in the source): the authentication flag, the
validators, the bound handler and the optional custom validation function. -/
structure Condition (E T U K P : Type) where
  isAuthentication : Bool
  validation : IValidation T U K P
  func : CallFunction E T U K P
  customValidationFunc : Option (CustomValidationFunction T U K P) := none

/-- The controller state: the per-method registry of bindings (the private
field `conditions`, an object keyed by HttpMethod). -/
structure HttpMethodController (E T U K P : Type) where
  conditions : HttpMethod → Option (Condition E T U K P) := fun _ => none

namespace HttpMethodController

/-- Canonical 400 response (static badRequestResponse). -/
def badRequestResponse : APIGatewayProxyResult :=
  { statusCode := 400, body := "Bad Request" }

/-- Canonical 401 response (static unauthorizeErrorResponse). -/
def unauthorizeErrorResponse : APIGatewayProxyResult :=
  { statusCode := 401, body := "Unauthorize" }

/-- Canonical 500 response (static internalServerErrorResponse). -/
def internalServerErrorResponse : APIGatewayProxyResult :=
  { statusCode := 500, body := "Internal Server Error" }

/-- setMethod: registers the binding for one HTTP method, overwriting any
previous binding for that method. -/
def setMethod {E T U K P : Type} (controller : HttpMethodController E T U K P)
    (method : HttpMethod) (condition : Condition E T U K P) :
    HttpMethodController E T U K P :=
  { controller with
    conditions := fun m => if m = method then some condition else controller.conditions m }

end HttpMethodController

/-- Instrumentation: one recorded call of an injected collaborator during a
dispatch, carrying the argument it received. -/
inductive TraceEv (E T U K P : Type) where
  | authFunc (event : APIGatewayProxyEvent T U K P)
  | validationCheck
  | customValidation (event : CustomValidationFunctionEventParameter T U K P)
  | handlerFunc (event : CallFunctionEventParameter E T U K P)

/-- Whether a trace event is a call of the process-wide authentication
function. -/
def TraceEv.isAuthFunc {E T U K P : Type} : TraceEv E T U K P → Bool
  | .authFunc _ => true
  | _ => false

/-- Whether a trace event is a call of the validation gate. -/
def TraceEv.isValidationCheck {E T U K P : Type} : TraceEv E T U K P → Bool
  | .validationCheck => true
  | _ => false

/-- Whether a trace event is a call of the custom validation function. -/
def TraceEv.isCustomValidation {E T U K P : Type} : TraceEv E T U K P → Bool
  | .customValidation _ => true
  | _ => false

/-- Whether a trace event is a call of the bound handler. -/
def TraceEv.isHandlerFunc {E T U K P : Type} : TraceEv E T U K P → Bool
  | .handlerFunc _ => true
  | _ => false

/-- True unless the event is a handler call whose merged event carries a
present userInfo. -/
def TraceEv.handlerUserInfoNone {E T U K P : Type} : TraceEv E T U K P → Bool
  | .handlerFunc arg => arg.userInfo.isNone
  | _ => true

namespace HttpMethodController

/-- The private static auth method: if the binding requires authentication,
either fail with error500 when no authentication function is configured, or
invoke the configured function with the raw event, mapping a rejection to
error500; otherwise succeed with no context.  The second component records
whether the authentication function was invoked. -/
def auth {E T U K P : Type} (authenticationFunc : Option (AuthenticationFunction E T U K P))
    (event : APIGatewayProxyEvent T U K P) (condition : Condition E T U K P) :
    AuthenticationFunctionResult E × List (TraceEv E T U K P) :=
  if condition.isAuthentication then
    match authenticationFunc with
    | none =>
      ({ userInfo := none, error401 := false, error500 := true }, [])
    | some f =>
      ((f event).catchD { userInfo := none, error401 := false, error500 := true },
        [.authFunc event])
  else
    ({ userInfo := none, error401 := false, error500 := false }, [])

/-- The private static handler method: the full dispatch.  Looks up the
binding for the method of the event, runs authentication, validation and
custom validation in order, and finally invokes the bound handler with the
merged event, mapping a rejected handler promise to the 500 response.  A
rejection of the custom validation function is not caught anywhere, so it
makes the dispatch promise itself rejected.  The second component is the
trace of collaborator calls. -/
def handler {E T U K P : Type} (authenticationFunc : Option (AuthenticationFunction E T U K P))
    (controller : HttpMethodController E T U K P) (event : APIGatewayProxyEvent T U K P) :
    PResult APIGatewayProxyResult × List (TraceEv E T U K P) :=
  match controller.conditions event.httpMethod with
  | none => (.resolved badRequestResponse, [])
  | some condition =>
    let authResult := auth authenticationFunc event condition
    if authResult.1.error401 then
      (.resolved unauthorizeErrorResponse, authResult.2)
    else if authResult.1.error500 then
      (.resolved internalServerErrorResponse, authResult.2)
    else
      let validationResult := Validation.check condition.validation event.headers
        event.pathParameters event.body event.queryStringParameters
      let trace1 := authResult.2 ++ [.validationCheck]
      if !validationResult then
        (.resolved badRequestResponse, trace1)
      else
        let callEvent : CallFunctionEventParameter E T U K P :=
          { headers := event.headers, pathParameters := event.pathParameters,
            body := event.body, queryParameters := event.queryStringParameters,
            userInfo := authResult.1.userInfo }
        let runFunc : List (TraceEv E T U K P) →
            PResult APIGatewayProxyResult × List (TraceEv E T U K P) := fun trace =>
          (.resolved ((condition.func callEvent).catchD internalServerErrorResponse),
            trace ++ [.handlerFunc callEvent])
        match condition.customValidationFunc with
        | none => runFunc trace1
        | some f =>
          let customEvent : CustomValidationFunctionEventParameter T U K P :=
            { headers := event.headers, pathParameters := event.pathParameters,
              body := event.body, queryParameters := event.queryStringParameters }
          let trace2 := trace1 ++ [.customValidation customEvent]
          match f customEvent with
          | .rejected => (.rejected, trace2)
          | .resolved customValidationResult =>
            match customValidationResult.errorResponse with
            | some response => (.resolved response, trace2)
            | none =>
              if !customValidationResult.validationResult then
                (.resolved badRequestResponse, trace2)
              else
                runFunc trace2

end HttpMethodController

/-- The custom validation gate passes without short-circuiting: either no
custom validation function is bound, or the bound one fulfills with no
override response and a true validationResult. -/
def customGateOk {T U K P : Type} (cvf : Option (CustomValidationFunction T U K P))
    (arg : CustomValidationFunctionEventParameter T U K P) : Bool :=
  match cvf with
  | none => true
  | some f =>
    match f arg with
    | .rejected => false
    | .resolved r => r.errorResponse.isNone && r.validationResult

/-- The trace of the auth gate is empty or a single call of the
authentication function with the raw event. -/
theorem auth_trace_eq {E T U K P : Type} (a : Option (AuthenticationFunction E T U K P))
    (e : APIGatewayProxyEvent T U K P) (c : Condition E T U K P) :
    (HttpMethodController.auth a e c).2 = [] ∨
      (HttpMethodController.auth a e c).2 = [TraceEv.authFunc e] := by
  unfold HttpMethodController.auth
  split
  · cases a <;> simp
  · simp

/-- The trace of the auth gate contains only authentication-function calls. -/
theorem auth_trace_all_authFunc {E T U K P : Type} (a : Option (AuthenticationFunction E T U K P))
    (e : APIGatewayProxyEvent T U K P) (c : Condition E T U K P) :
    ((HttpMethodController.auth a e c).2).all TraceEv.isAuthFunc = true := by
  rcases auth_trace_eq a e c with h | h <;> rw [h] <;> simp [TraceEv.isAuthFunc]

/-- When the binding does not require authentication, the auth gate succeeds
with no context and calls nothing. -/
theorem auth_skipped_eq {E T U K P : Type} (a : Option (AuthenticationFunction E T U K P))
    (e : APIGatewayProxyEvent T U K P) (c : Condition E T U K P)
    (hA : c.isAuthentication = false) :
    HttpMethodController.auth a e c =
      ({ userInfo := none, error401 := false, error500 := false }, []) := by
  simp [HttpMethodController.auth, hA]

namespace Fixtures

/-- A concrete event used by the witnesses: GET with empty fields. -/
def ev0 : APIGatewayProxyEvent Nat Nat Nat Nat :=
  { httpMethod := .GET, headers := 0, pathParameters := none, body := none,
    queryStringParameters := none }

/-- A concrete success response. -/
def okResponse : APIGatewayProxyResult := { statusCode := 200, body := "ok" }

/-- A concrete handler that always fulfills with okResponse. -/
def okFunc : CallFunction Nat Nat Nat Nat Nat := fun _ => .resolved okResponse

/-- A controller whose only binding is the given one, registered for GET. -/
def mkCtrl (c : Condition Nat Nat Nat Nat Nat) : HttpMethodController Nat Nat Nat Nat Nat :=
  { conditions := fun m => match m with | .GET => some c | _ => none }

/-- A binding with no authentication, no validators and no custom validation. -/
def condPlain : Condition Nat Nat Nat Nat Nat :=
  { isAuthentication := false, validation := {}, func := okFunc }

/-- A binding that requires authentication. -/
def condAuth : Condition Nat Nat Nat Nat Nat :=
  { isAuthentication := true, validation := {}, func := okFunc }

/-- A binding whose custom validation function always rejects. -/
def condReject : Condition Nat Nat Nat Nat Nat :=
  { isAuthentication := false, validation := {}, func := okFunc,
    customValidationFunc := some fun _ => .rejected }

/-- An authentication function that fulfills with error401 set. -/
def auth401 : AuthenticationFunction Nat Nat Nat Nat Nat :=
  fun _ => .resolved { userInfo := none, error401 := true, error500 := false }

/-- An authentication function that fulfills with both error flags set,
violating the at-most-one-error invariant. -/
def authBoth : AuthenticationFunction Nat Nat Nat Nat Nat :=
  fun _ => .resolved { userInfo := none, error401 := true, error500 := true }

/-- An authentication function that fulfills with user information 7. -/
def authOk : AuthenticationFunction Nat Nat Nat Nat Nat :=
  fun _ => .resolved { userInfo := some 7, error401 := false, error500 := false }

/-- A custom validation function that passes but carries an override
response with an unusual status code. -/
def overrideCustom : CustomValidationFunction Nat Nat Nat Nat :=
  fun _ => .resolved { validationResult := true, errorResponse := some { statusCode := 299, body := "override" } }

/-- A custom validation function that fails with no override. -/
def failCustom : CustomValidationFunction Nat Nat Nat Nat :=
  fun _ => .resolved { validationResult := false }

end Fixtures

/-- A controller with no registered bindings. -/
def Fixtures.emptyCtrl : HttpMethodController Nat Nat Nat Nat Nat := {}

/-- Claim C3: for every request whose method has no registered binding in the
conditions map of the controller, the dispatch fulfills with the 400 Bad
Request response and the trace is empty, so no gate (authentication,
validation, custom validation) and no handler is ever invoked. -/
theorem dispatch_no_binding_bad_request {E T U K P : Type}
    (a : Option (AuthenticationFunction E T U K P))
    (controller : HttpMethodController E T U K P) (event : APIGatewayProxyEvent T U K P)
    (hc : controller.conditions event.httpMethod = none) :
    HttpMethodController.handler a controller event =
      (.resolved HttpMethodController.badRequestResponse, []) := by
  unfold HttpMethodController.handler
  rw [hc]

/-- Witness for C3 at a concrete unbound controller and event. -/
theorem dispatch_no_binding_bad_request_witness :
    HttpMethodController.handler none Fixtures.emptyCtrl Fixtures.ev0 =
      (.resolved HttpMethodController.badRequestResponse, []) :=
  dispatch_no_binding_bad_request none Fixtures.emptyCtrl Fixtures.ev0 rfl

/-- Claim C5: for every request whose binding has isAuthentication true, when
no process-wide authentication function is configured the dispatch fulfills
with the 500 Internal Server Error response and an empty trace, so it is
never 401 and the handler is never invoked. -/
theorem dispatch_auth_required_unconfigured_internal_error {E T U K P : Type}
    (controller : HttpMethodController E T U K P) (event : APIGatewayProxyEvent T U K P)
    (condition : Condition E T U K P)
    (hc : controller.conditions event.httpMethod = some condition)
    (hA : condition.isAuthentication = true) :
    HttpMethodController.handler none controller event =
      (.resolved HttpMethodController.internalServerErrorResponse, []) := by
  unfold HttpMethodController.handler
  rw [hc]
  have hauth : HttpMethodController.auth (none : Option (AuthenticationFunction E T U K P))
      event condition = ({ userInfo := none, error401 := false, error500 := true }, []) := by
    simp [HttpMethodController.auth, hA]
  simp [hauth]

/-- Witness for C5 at a concrete authentication-requiring binding. -/
theorem dispatch_auth_required_unconfigured_internal_error_witness :
    HttpMethodController.handler none (Fixtures.mkCtrl Fixtures.condAuth) Fixtures.ev0 =
      (.resolved HttpMethodController.internalServerErrorResponse, []) :=
  dispatch_auth_required_unconfigured_internal_error (Fixtures.mkCtrl Fixtures.condAuth)
    Fixtures.ev0 Fixtures.condAuth rfl rfl

/-- Claim C2: for every request whose binding has isAuthentication true, if
the authentication outcome has error401 true then the dispatch fulfills with
the 401 Unauthorize response and the trace is exactly the auth-gate trace,
which contains only authentication-function calls: the validation gate, the
custom validation function and the bound handler are never invoked. -/
theorem dispatch_error401_unauthorized_short_circuit {E T U K P : Type}
    (a : Option (AuthenticationFunction E T U K P))
    (controller : HttpMethodController E T U K P) (event : APIGatewayProxyEvent T U K P)
    (condition : Condition E T U K P)
    (hc : controller.conditions event.httpMethod = some condition)
    (hA : condition.isAuthentication = true)
    (h401 : (HttpMethodController.auth a event condition).1.error401 = true) :
    HttpMethodController.handler a controller event =
        (.resolved HttpMethodController.unauthorizeErrorResponse,
          (HttpMethodController.auth a event condition).2) ∧
      ((HttpMethodController.auth a event condition).2).all TraceEv.isAuthFunc = true := by
  refine ⟨?_, auth_trace_all_authFunc a event condition⟩
  unfold HttpMethodController.handler
  rw [hc]
  simp [h401]

/-- Witness for C2 at a concrete authentication function that answers
error401. -/
theorem dispatch_error401_unauthorized_short_circuit_witness :
    (HttpMethodController.handler (some Fixtures.auth401) (Fixtures.mkCtrl Fixtures.condAuth)
          Fixtures.ev0 =
        (.resolved HttpMethodController.unauthorizeErrorResponse,
          (HttpMethodController.auth (some Fixtures.auth401) Fixtures.ev0
              Fixtures.condAuth).2)) ∧
      ((HttpMethodController.auth (some Fixtures.auth401) Fixtures.ev0
          Fixtures.condAuth).2).all TraceEv.isAuthFunc = true :=
  dispatch_error401_unauthorized_short_circuit (some Fixtures.auth401)
    (Fixtures.mkCtrl Fixtures.condAuth) Fixtures.ev0 Fixtures.condAuth rfl rfl rfl

/-- Claim C10: when the authentication outcome carries both error401 and
error500 (violating the at-most-one-error invariant), the dispatch fulfills
with the 401 Unauthorize response, not the 500 response: the error401 check
strictly precedes the error500 check. -/
theorem dispatch_error401_precedes_error500 {E T U K P : Type}
    (a : Option (AuthenticationFunction E T U K P))
    (controller : HttpMethodController E T U K P) (event : APIGatewayProxyEvent T U K P)
    (condition : Condition E T U K P)
    (hc : controller.conditions event.httpMethod = some condition)
    (h401 : (HttpMethodController.auth a event condition).1.error401 = true)
    (h500 : (HttpMethodController.auth a event condition).1.error500 = true) :
    (HttpMethodController.handler a controller event).1 =
      .resolved HttpMethodController.unauthorizeErrorResponse := by
  unfold HttpMethodController.handler
  rw [hc]
  simp [h401]

/-- Witness for C10 at a concrete authentication function setting both error
flags. -/
theorem dispatch_error401_precedes_error500_witness :
    (HttpMethodController.handler (some Fixtures.authBoth) (Fixtures.mkCtrl Fixtures.condAuth)
        Fixtures.ev0).1 = .resolved HttpMethodController.unauthorizeErrorResponse :=
  dispatch_error401_precedes_error500 (some Fixtures.authBoth)
    (Fixtures.mkCtrl Fixtures.condAuth) Fixtures.ev0 Fixtures.condAuth rfl rfl rfl

/-- Claim C9: setMethod makes the subsequent lookup for the registered method
yield the new binding, overwriting any previous one, and leaves the binding
registered for every other method unchanged. -/
theorem setMethod_updates_and_frames {E T U K P : Type}
    (controller : HttpMethodController E T U K P) (method : HttpMethod)
    (condition : Condition E T U K P) (m : HttpMethod) (hm : m ≠ method) :
    (controller.setMethod method condition).conditions method = some condition ∧
      (controller.setMethod method condition).conditions m = controller.conditions m := by
  constructor
  · simp [HttpMethodController.setMethod]
  · simp [HttpMethodController.setMethod, hm]

/-- Witness for C9: registering for POST yields the new binding at POST and
leaves GET unchanged. -/
theorem setMethod_updates_and_frames_witness :
    (Fixtures.emptyCtrl.setMethod .POST Fixtures.condPlain).conditions .POST =
        some Fixtures.condPlain ∧
      (Fixtures.emptyCtrl.setMethod .POST Fixtures.condPlain).conditions .GET =
        Fixtures.emptyCtrl.conditions .GET :=
  setMethod_updates_and_frames Fixtures.emptyCtrl .POST Fixtures.condPlain .GET (by decide)

/-- A binding whose custom validation function passes but carries an
override response. -/
def Fixtures.condOverride : Condition Nat Nat Nat Nat Nat :=
  { isAuthentication := false, validation := {}, func := Fixtures.okFunc,
    customValidationFunc := some Fixtures.overrideCustom }

/-- A binding whose custom validation function fails with no override. -/
def Fixtures.condFail : Condition Nat Nat Nat Nat Nat :=
  { isAuthentication := false, validation := {}, func := Fixtures.okFunc,
    customValidationFunc := some Fixtures.failCustom }

/-- Claim C6: when the dispatch reaches a bound custom validation function
and its result carries an errorResponse, the dispatch fulfills with that
response verbatim, regardless of its status code and regardless of
validationResult. -/
theorem dispatch_custom_validation_override_returned {E T U K P : Type}
    (a : Option (AuthenticationFunction E T U K P))
    (controller : HttpMethodController E T U K P) (event : APIGatewayProxyEvent T U K P)
    (condition : Condition E T U K P) (f : CustomValidationFunction T U K P)
    (cvr : CustomValidationFunctionResult) (r : APIGatewayProxyResult)
    (hc : controller.conditions event.httpMethod = some condition)
    (h401 : (HttpMethodController.auth a event condition).1.error401 = false)
    (h500 : (HttpMethodController.auth a event condition).1.error500 = false)
    (hv : Validation.check condition.validation event.headers event.pathParameters
      event.body event.queryStringParameters = true)
    (hcv : condition.customValidationFunc = some f)
    (hf : f { headers := event.headers, pathParameters := event.pathParameters,
              body := event.body, queryParameters := event.queryStringParameters } =
      .resolved cvr)
    (he : cvr.errorResponse = some r) :
    (HttpMethodController.handler a controller event).1 = .resolved r := by
  unfold HttpMethodController.handler
  rw [hc]
  simp [h401, h500, hv, hcv, hf, he]

/-- Witness for C6: a passing validation result with an override of status
299 is still returned verbatim. -/
theorem dispatch_custom_validation_override_returned_witness :
    (HttpMethodController.handler none (Fixtures.mkCtrl Fixtures.condOverride)
        Fixtures.ev0).1 = .resolved { statusCode := 299, body := "override" } :=
  dispatch_custom_validation_override_returned none (Fixtures.mkCtrl Fixtures.condOverride)
    Fixtures.ev0 Fixtures.condOverride Fixtures.overrideCustom
    { validationResult := true, errorResponse := some { statusCode := 299, body := "override" } }
    { statusCode := 299, body := "override" } rfl rfl rfl rfl rfl rfl rfl

/-- Claim C7: when the dispatch reaches a bound custom validation function
and its result has validationResult false and no errorResponse, the dispatch
fulfills with the 400 Bad Request response and the bound handler is never
invoked. -/
theorem dispatch_custom_validation_failure_bad_request {E T U K P : Type}
    (a : Option (AuthenticationFunction E T U K P))
    (controller : HttpMethodController E T U K P) (event : APIGatewayProxyEvent T U K P)
    (condition : Condition E T U K P) (f : CustomValidationFunction T U K P)
    (cvr : CustomValidationFunctionResult)
    (hc : controller.conditions event.httpMethod = some condition)
    (h401 : (HttpMethodController.auth a event condition).1.error401 = false)
    (h500 : (HttpMethodController.auth a event condition).1.error500 = false)
    (hv : Validation.check condition.validation event.headers event.pathParameters
      event.body event.queryStringParameters = true)
    (hcv : condition.customValidationFunc = some f)
    (hf : f { headers := event.headers, pathParameters := event.pathParameters,
              body := event.body, queryParameters := event.queryStringParameters } =
      .resolved cvr)
    (he : cvr.errorResponse = none)
    (hvr : cvr.validationResult = false) :
    (HttpMethodController.handler a controller event).1 =
        .resolved HttpMethodController.badRequestResponse ∧
      ((HttpMethodController.handler a controller event).2).all
        (fun ev => !ev.isHandlerFunc) = true := by
  constructor
  · unfold HttpMethodController.handler
    rw [hc]
    simp [h401, h500, hv, hcv, hf, he, hvr]
  · unfold HttpMethodController.handler
    rw [hc]
    rcases auth_trace_eq a event condition with h | h <;>
      simp [h401, h500, hv, hcv, hf, he, hvr, h, TraceEv.isHandlerFunc]

/-- Witness for C7 at a concrete failing custom validation function. -/
theorem dispatch_custom_validation_failure_bad_request_witness :
    (HttpMethodController.handler none (Fixtures.mkCtrl Fixtures.condFail)
          Fixtures.ev0).1 = .resolved HttpMethodController.badRequestResponse ∧
      ((HttpMethodController.handler none (Fixtures.mkCtrl Fixtures.condFail)
          Fixtures.ev0).2).all (fun ev => !ev.isHandlerFunc) = true :=
  dispatch_custom_validation_failure_bad_request none (Fixtures.mkCtrl Fixtures.condFail)
    Fixtures.ev0 Fixtures.condFail Fixtures.failCustom { validationResult := false }
    rfl rfl rfl rfl rfl rfl rfl rfl

/-- Counterexample for C1: with a bound custom validation function whose
promise rejects, the dispatch promise itself rejects; it does not fulfill
with the 500 Internal Server Error response.  The catch in the source wraps
only the handler invocation, not the custom validation call. -/
theorem customValidation_rejection_not_internal_error :
    (HttpMethodController.handler none (Fixtures.mkCtrl Fixtures.condReject)
          Fixtures.ev0).1 = .rejected ∧
      (HttpMethodController.handler none (Fixtures.mkCtrl Fixtures.condReject)
          Fixtures.ev0).1 ≠
        .resolved HttpMethodController.internalServerErrorResponse := by
  constructor
  · rfl
  · intro h
    exact PResult.noConfusion h

/-- Claim C1 amended: for every dispatch that reaches a bound custom
validation function whose promise rejects, the dispatch promise itself
rejects: the raw rejection escapes the dispatcher, and no response (in
particular not the 500 Internal Server Error response) is produced. -/
theorem dispatch_custom_validation_rejection_rejects {E T U K P : Type}
    (a : Option (AuthenticationFunction E T U K P))
    (controller : HttpMethodController E T U K P) (event : APIGatewayProxyEvent T U K P)
    (condition : Condition E T U K P) (f : CustomValidationFunction T U K P)
    (hc : controller.conditions event.httpMethod = some condition)
    (h401 : (HttpMethodController.auth a event condition).1.error401 = false)
    (h500 : (HttpMethodController.auth a event condition).1.error500 = false)
    (hv : Validation.check condition.validation event.headers event.pathParameters
      event.body event.queryStringParameters = true)
    (hcv : condition.customValidationFunc = some f)
    (hf : f { headers := event.headers, pathParameters := event.pathParameters,
              body := event.body, queryParameters := event.queryStringParameters } =
      .rejected) :
    (HttpMethodController.handler a controller event).1 = .rejected := by
  unfold HttpMethodController.handler
  rw [hc]
  simp [h401, h500, hv, hcv, hf]

/-- Witness for the amended C1 at a concrete rejecting custom validation
function. -/
theorem dispatch_custom_validation_rejection_rejects_witness :
    (HttpMethodController.handler none (Fixtures.mkCtrl Fixtures.condReject)
        Fixtures.ev0).1 = .rejected :=
  dispatch_custom_validation_rejection_rejects none (Fixtures.mkCtrl Fixtures.condReject)
    Fixtures.ev0 Fixtures.condReject (fun _ => .rejected) rfl rfl rfl rfl rfl rfl

/-- Claim C4: for every dispatch whose binding has isAuthentication false,
the auth gate returns success with no context and records no call of the
process-wide authentication function (even when one is configured); over the
whole dispatch the authentication function is never invoked, and every
handler call in the trace received a merged event with an absent userInfo. -/
theorem dispatch_no_auth_skips_authentication {E T U K P : Type}
    (a : Option (AuthenticationFunction E T U K P))
    (controller : HttpMethodController E T U K P) (event : APIGatewayProxyEvent T U K P)
    (condition : Condition E T U K P)
    (hc : controller.conditions event.httpMethod = some condition)
    (hA : condition.isAuthentication = false) :
    HttpMethodController.auth a event condition =
        ({ userInfo := none, error401 := false, error500 := false }, []) ∧
      ((HttpMethodController.handler a controller event).2).all
          (fun ev => !ev.isAuthFunc) = true ∧
      ((HttpMethodController.handler a controller event).2).all
        TraceEv.handlerUserInfoNone = true := by
  have hauth := auth_skipped_eq a event condition hA
  refine ⟨hauth, ?_, ?_⟩
  · unfold HttpMethodController.handler
    rw [hc]
    simp only [hauth]
    repeat' split
    all_goals simp [TraceEv.isAuthFunc]
  · unfold HttpMethodController.handler
    rw [hc]
    simp only [hauth]
    repeat' split
    all_goals simp [TraceEv.handlerUserInfoNone]

/-- Witness for C4: even with an authentication function configured, a
binding with isAuthentication false skips it. -/
theorem dispatch_no_auth_skips_authentication_witness :
    HttpMethodController.auth (some Fixtures.authOk) Fixtures.ev0 Fixtures.condPlain =
        ({ userInfo := none, error401 := false, error500 := false }, []) ∧
      ((HttpMethodController.handler (some Fixtures.authOk)
          (Fixtures.mkCtrl Fixtures.condPlain) Fixtures.ev0).2).all
          (fun ev => !ev.isAuthFunc) = true ∧
      ((HttpMethodController.handler (some Fixtures.authOk)
          (Fixtures.mkCtrl Fixtures.condPlain) Fixtures.ev0).2).all
        TraceEv.handlerUserInfoNone = true :=
  dispatch_no_auth_skips_authentication (some Fixtures.authOk)
    (Fixtures.mkCtrl Fixtures.condPlain) Fixtures.ev0 Fixtures.condPlain rfl rfl

/-- Claim C8: for every dispatch that passes all gates (binding found, no
authentication error, validation gate true, custom validation gate passing),
the bound handler is invoked exactly once, with the merged event made of the
raw fields and the authenticated userInfo, and the dispatch fulfills with the
handler response when the handler fulfills and with the 500 Internal Server
Error response when the handler promise rejects (the catchD equation states
both cases at once). -/
theorem dispatch_handler_invocation {E T U K P : Type}
    (a : Option (AuthenticationFunction E T U K P))
    (controller : HttpMethodController E T U K P) (event : APIGatewayProxyEvent T U K P)
    (condition : Condition E T U K P)
    (hc : controller.conditions event.httpMethod = some condition)
    (h401 : (HttpMethodController.auth a event condition).1.error401 = false)
    (h500 : (HttpMethodController.auth a event condition).1.error500 = false)
    (hv : Validation.check condition.validation event.headers event.pathParameters
      event.body event.queryStringParameters = true)
    (hcg : customGateOk condition.customValidationFunc
        { headers := event.headers, pathParameters := event.pathParameters,
          body := event.body, queryParameters := event.queryStringParameters } = true) :
    (HttpMethodController.handler a controller event).1 =
        .resolved ((condition.func
            { headers := event.headers, pathParameters := event.pathParameters,
              body := event.body, queryParameters := event.queryStringParameters,
              userInfo := (HttpMethodController.auth a event condition).1.userInfo }).catchD
          HttpMethodController.internalServerErrorResponse) ∧
      ((HttpMethodController.handler a controller event).2).filter
          TraceEv.isHandlerFunc =
        [TraceEv.handlerFunc
          { headers := event.headers, pathParameters := event.pathParameters,
            body := event.body, queryParameters := event.queryStringParameters,
            userInfo := (HttpMethodController.auth a event condition).1.userInfo }] := by
  unfold HttpMethodController.handler
  rw [hc]
  cases hcvf : condition.customValidationFunc with
  | none =>
    constructor
    · simp [h401, h500, hv, hcvf]
    · rcases auth_trace_eq a event condition with h | h <;>
        simp [h401, h500, hv, hcvf, h, TraceEv.isHandlerFunc]
  | some f =>
    rw [hcvf] at hcg
    simp only [customGateOk] at hcg
    cases hf : f { headers := event.headers, pathParameters := event.pathParameters,
                   body := event.body, queryParameters := event.queryStringParameters } with
    | rejected => rw [hf] at hcg; simp at hcg
    | resolved cvr =>
      rw [hf] at hcg
      simp only [Bool.and_eq_true, Option.isNone_iff_eq_none] at hcg
      obtain ⟨he, hvr⟩ := hcg
      constructor
      · simp [h401, h500, hv, hcvf, hf, he, hvr]
      · rcases auth_trace_eq a event condition with h | h <;>
          simp [h401, h500, hv, hcvf, hf, he, hvr, h, TraceEv.isHandlerFunc]

/-- Witness for C8: an authenticated GET dispatch invokes the bound handler
once with userInfo carried over from authentication and returns its
response. -/
theorem dispatch_handler_invocation_witness :
    (HttpMethodController.handler (some Fixtures.authOk) (Fixtures.mkCtrl Fixtures.condAuth)
          Fixtures.ev0).1 =
        .resolved ((Fixtures.condAuth.func
            { headers := Fixtures.ev0.headers,
              pathParameters := Fixtures.ev0.pathParameters,
              body := Fixtures.ev0.body,
              queryParameters := Fixtures.ev0.queryStringParameters,
              userInfo := (HttpMethodController.auth (some Fixtures.authOk) Fixtures.ev0
                  Fixtures.condAuth).1.userInfo }).catchD
          HttpMethodController.internalServerErrorResponse) ∧
      ((HttpMethodController.handler (some Fixtures.authOk)
            (Fixtures.mkCtrl Fixtures.condAuth) Fixtures.ev0).2).filter
          TraceEv.isHandlerFunc =
        [TraceEv.handlerFunc
          { headers := Fixtures.ev0.headers,
            pathParameters := Fixtures.ev0.pathParameters,
            body := Fixtures.ev0.body,
            queryParameters := Fixtures.ev0.queryStringParameters,
            userInfo := (HttpMethodController.auth (some Fixtures.authOk) Fixtures.ev0
                Fixtures.condAuth).1.userInfo }] :=
  dispatch_handler_invocation (some Fixtures.authOk) (Fixtures.mkCtrl Fixtures.condAuth)
    Fixtures.ev0 Fixtures.condAuth rfl rfl rfl rfl rfl
